import Mathlib

/-!
Shallow embedding of goptimizer (goptimizer.go): a wrapper around the
betteralign rewriter and the go toolchain.  Pure data flow and control flow
of the source are rendered as Lean functions; external processes and the
filesystem appear as explicit oracle parameters (the combined output and
error each call would return).
-/

namespace Goptimizer

/-- An exec.Cmd as the source builds one: the executable path, the argument
vector, and the Dir field (none means the command inherits the working
directory of the goptimizer process itself). -/
structure Command where
  exe : String
  argv : List String
  dir : Option String
deriving DecidableEq, Repr

/-- Flag registration, source line 47: flag.Bool with default false for the
generated flag.  The help text at line 36 documents the default as true. -/
def generatedFilesDefault : Bool := false

/-- Flag registration, source line 48: flag.Bool with default true for
testFiles. -/
def testFilesDefault : Bool := true

/-- The help text line documenting the generated flag, source lines 35-36. -/
def helpTextGeneratedLine : String := "Field align generated files (default true)"

/-- Argument vector for betteralign built in optimize, source lines 269-276:
start from -apply, append -generated_files and -test_files according to the
flags, then append the dot pattern. -/
def optimizeArgs (generatedFiles testFiles : Bool) : List String :=
  (((["-apply"]
    ++ (if generatedFiles then ["-generated_files"] else []))
    ++ (if testFiles then ["-test_files"] else []))
    ++ ["."])

/-- The command actually executed on each pass of the loop at source lines
283-292: exec.Command(alignPath, args...) at line 287, whose Dir field is
never set, so it runs in the process working directory.  The cmd value built
at lines 285-286 (whose Path field is overwritten with the walk path) is
constructed and then discarded without being run. -/
def executedAlignCommand (alignPath : String) (args : List String) : Command :=
  { exe := alignPath, argv := args, dir := none }

/-- Outcome of one dispatched optimization task: the commands it executed in
order, the lines it printed, and the error it returned to the wait group. -/
structure TaskResult where
  commandsRun : List Command
  printed : List String
  taskErr : Option String
deriving DecidableEq, Repr

/-- One pooled task body, source lines 277-295.  The oracle gives, for pass
index i, the combined output and the error of running betteralign then.  The
loop runs the rewriter twice; a failing pass prints the error together with
the captured combined output and returns the error, so a failure on pass one
means pass two is never executed.  The task path appears only in the
Optimizing and done prints (and in the discarded cmd value), never in the
executed command. -/
def optimizeTask (alignPath : String) (args : List String) (path : String)
    (oracle : Nat → String × Option String) : TaskResult :=
  let c := executedAlignCommand alignPath args
  let r0 := oracle 0
  match r0.2 with
  | some e =>
      { commandsRun := [c]
        printed := ["Optimizing:  " ++ path,
                    "Could not run betteralign: " ++ e ++ "\n" ++ r0.1,
                    "done with:  " ++ path]
        taskErr := some e }
  | none =>
      let r1 := oracle 1
      match r1.2 with
      | some e =>
          { commandsRun := [c, c]
            printed := ["Optimizing:  " ++ path,
                        "Could not run betteralign: " ++ e ++ "\n" ++ r1.1,
                        "done with:  " ++ path]
            taskErr := some e }
      | none =>
          { commandsRun := [c, c]
            printed := ["Optimizing:  " ++ path, "done with:  " ++ path]
            taskErr := none }

/-- Oracle for a run of betteralign that succeeds on every pass with empty
combined output. -/
def okOracle : Nat → String × Option String := fun _ => ("", none)

deriving instance DecidableEq for Except

/-- A directory entry as the eligibility filter sees it: the entry name and,
for files the filter parses, the parse result of go/parser ParseFile with
ImportsOnly: either a parse error or the list of import path values (each
still carrying its surrounding quote characters, as in imp.Path.Value). -/
structure GoFile where
  name : String
  parsed : Except String (List String)
deriving DecidableEq, Repr

/-- The quote trim of source line 176: imp.Path.Value with its first and last
character removed. -/
def trimQuotes (s : String) : String := String.mk ((s.data.drop 1).dropLast)

/-- The extension test of source line 162: filepath.Ext(path) equals the go
extension exactly when the name ends in dot g o. -/
def hasGoExt (s : String) : Bool :=
  match s.data.reverse with
  | 'o' :: 'g' :: '.' :: _ => true
  | _ => false

/-- Loop body of shouldOptimize, source lines 158-181, with the foundGo
accumulator.  Non go files are skipped; a parse error returns false with the
error; a reflect import returns false with no error; otherwise foundGo
becomes true and the loop continues. -/
def shouldOptimizeLoop (foundGo : Bool) : List GoFile → Bool × Option String
  | [] => (foundGo, none)
  | f :: rest =>
    if hasGoExt f.name then
      match f.parsed with
      | .error e => (false, some e)
      | .ok imps =>
        if imps.any (fun s => trimQuotes s == "reflect") then (false, none)
        else shouldOptimizeLoop true rest
    else shouldOptimizeLoop foundGo rest

/-- shouldOptimize, source lines 151-186, over the directory listing (the
ReadDir error path at 152-155 is upstream of this loop and not modelled
here): returns the eligibility verdict and the error, as the Go function
returns (bool, error). -/
def shouldOptimize (dir : List GoFile) : Bool × Option String :=
  shouldOptimizeLoop false dir

/-- An os.DirEntry as the snapshot code uses it: the entry name and whether
it is a directory. -/
structure DirEntry where
  name : String
  isDir : Bool
deriving DecidableEq, Repr

/-- diffDirs, source lines 206-226: collect the names of the non directory
entries of a into a map, then keep each non directory entry of b whose name
is not a key of that map, in the order of b. -/
def diffDirs (a b : List DirEntry) : List DirEntry :=
  let m := (a.filter fun f => !f.isDir).map DirEntry.name
  b.filter fun f => !f.isDir && !(m.contains f.name)

/-- The loop over the diff at source lines 430-440: for each entry, ask
isExecutable of tmpDir joined with the entry name; an error there returns
early (the printed message and the early return are rendered by the caller),
otherwise entries whose executable bit is set are collected in order.  The
oracle gives, per queried path, the bool and the error os.Stat would
yield. -/
def collectExecutables (tmpDir : String) (isExec : String → Bool × Option String) :
    List DirEntry → Except String (List DirEntry)
  | [] => .ok []
  | f :: rest =>
    let r := isExec (tmpDir ++ "/" ++ f.name)
    match r.2 with
    | some e => .error e
    | none =>
      match collectExecutables tmpDir isExec rest with
      | .error e => .error e
      | .ok es => .ok (if r.1 then f :: es else es)

/-- What the tail of main observably does: the exit status of the process,
the copy it performed (source and destination path), and the error lines it
printed. -/
structure TailOutcome where
  exitCode : Nat
  copied : Option (String × String)
  messages : List String
deriving DecidableEq, Repr

/-- The tail of main after a successful build and snapshot reads, source
lines 428-459.  At this point the outer err variable of main is nil (the
last writes to it were the successful ReadDir and CombinedOutput calls), and
every later error check shadows err with a fresh variable (the isExecutable
check at line 432 and the copyFile check at line 456), so the deferred
os.Exit(1) at lines 336-340 never fires on any of these paths and the
process exit status is 0 throughout.  copyErr is the error the one possible
copyFile call would return. -/
def mainTail (tmpDir originalDir : String) (before after : List DirEntry)
    (isExec : String → Bool × Option String) (copyErr : Option String) : TailOutcome :=
  let diff := diffDirs before after
  match collectExecutables tmpDir isExec diff with
  | .error e =>
      { exitCode := 0, copied := none
        messages := ["Could not check if file is executable: " ++ e] }
  | .ok execs =>
    match execs with
    | [] =>
        { exitCode := 0, copied := none
          messages := ["No executable files were generated by go build"] }
    | [f] =>
        let src := tmpDir ++ "/" ++ f.name
        let dst := originalDir ++ "/" ++ f.name
        match copyErr with
        | some e =>
            { exitCode := 0, copied := none
              messages := ["Could not copy executable to original directory: " ++ e] }
        | none => { exitCode := 0, copied := some (src, dst), messages := [] }
    | _ =>
        { exitCode := 0, copied := none
          messages := ["Multiple executable files were generated by go build at: " ++ tmpDir] }

/-- The toolchain phase of main, source lines 367-420: go mod tidy, go mod
vendor, the optimize walk, then go build.  Each oracle argument is what the
corresponding call would produce: for tidy and vendor only the error is
inspected by the code (they are started with Run, which discards the
subprocess output, so tidyOut and vendorOut never reach the printed
message); the build uses CombinedOutput and its message carries the output.
The result is the process exit status and the error lines printed.  Exit
status: tidy, vendor and build failures assign the outer err of main and
return, so the deferred check exits 1; the optimize failure check at line
378 shadows err, so the process exits 0 there. -/
def toolchainPhase (tidyOut : String) (tidyErr : Option String)
    (vendorOut : String) (vendorErr : Option String)
    (optimizeErr : Option String)
    (buildOut : String) (buildErr : Option String) : Nat × List String :=
  match tidyErr with
  | some e => (1, ["Could not run go mod tidy: " ++ e])
  | none =>
    match vendorErr with
    | some e => (1, ["Could not run go mod vendor: " ++ e])
    | none =>
      match optimizeErr with
      | some e => (0, ["Could not optimize files: " ++ e])
      | none =>
        match buildErr with
        | some e => (1, ["Could not run go build: " ++ e ++ "\n" ++ buildOut])
        | none => (0, [])

/-- beginsWith pat l: the character list l starts with pat. -/
def beginsWith : List Char → List Char → Bool
  | [], _ => true
  | _ :: _, [] => false
  | a :: as, b :: bs => a == b && beginsWith as bs

/-- occursIn pat l: pat occurs contiguously somewhere in l. -/
def occursIn (pat : List Char) : List Char → Bool
  | [] => beginsWith pat []
  | c :: rest => beginsWith pat (c :: rest) || occursIn pat rest

/-- strOccursIn pat hay: pat occurs verbatim as a contiguous substring of
hay. -/
def strOccursIn (pat hay : String) : Bool := occursIn pat.data hay.data

/-- The filesystem and process effects of main, at the granularity the
staging claims need. -/
inductive Effect where
  | mkdirAll (path : String)
  | copyTree (src dst : String)
  | chdir (path : String)
  | invoke (c : Command)
  | optimizeTree (root : String)
  | readDir (path : String)
  | copyFileTo (src dst : String)
  | removeAll (path : String)
deriving DecidableEq, Repr

/-- Whether an effect is a RemoveAll call. -/
def Effect.isRemoveAll : Effect → Bool
  | .removeAll _ => true
  | _ => false

/-- The effects of main on a fully successful run, in order, source lines
342-459: MkdirAll of the staging directory (line 344), the tree copy (line
356), Chdir (line 361), go mod tidy and go mod vendor (lines 368-375), the
optimize walk (line 378), optionally go test (lines 384-395), the before
snapshot (line 406), go build (line 416), the after snapshot (line 422), and
the copy of the one executable back (line 456).  The per entry stat calls of
the executable check are below this granularity.  The RemoveAll cleanup of
the staging directory, lines 349-355 of the source, is commented out, so no
removeAll effect ever occurs. -/
def mainSuccessEffects (goPath tempDir uuid modPath originalDir relPath exeName : String)
    (runTests : Bool) (goflags : List String) : List Effect :=
  let tmpDir := tempDir ++ "/goptimizer/" ++ uuid
  let p := tmpDir ++ "/" ++ relPath
  ([Effect.mkdirAll tmpDir,
    Effect.copyTree modPath tmpDir,
    Effect.chdir tmpDir,
    Effect.invoke { exe := goPath, argv := ["mod", "tidy"], dir := none },
    Effect.invoke { exe := goPath, argv := ["mod", "vendor"], dir := none },
    Effect.optimizeTree tmpDir]
   ++ (if runTests then [Effect.invoke { exe := goPath, argv := ["test", "./..."], dir := some tmpDir }] else [])
   ++ [Effect.readDir p,
       Effect.invoke { exe := goPath, argv := "build" :: goflags, dir := none },
       Effect.readDir p,
       Effect.copyFileTo (tmpDir ++ "/" ++ exeName) (originalDir ++ "/" ++ exeName)])

/-- The test of source lines 113 and 260: strings.HasPrefix of the entry
name and the dot string, so whether the name starts with a dot. -/
def nameIsHidden (s : String) : Bool :=
  match s.data with
  | '.' :: _ => true
  | _ => false

/-- What one callback invocation of the copyFiles walk does with the current
entry. -/
inductive WalkRes where
  | cont
  | skipDir
  | fail (e : String)
  | panicked
deriving DecidableEq, Repr

/-- One invocation of the WalkDir callback inside copyFiles, source lines
109-147.  walkErr is the err argument WalkDir passed in; relRes the result
of filepath.Rel; mkdirRes the error of os.MkdirAll for a directory entry;
infoRes the result of d.Info() for a file entry (on error the returned
FileInfo interface is nil); copyRes the error of copyFile.  The switch
checks the root path first, then the hidden directory skip, then walkErr.
For a file entry, the error of d.Info() is discarded by the empty branch at
lines 142-143, after which fi.Mode() at line 144 is a method call on a nil
interface value and the goroutine panics; when d.Info() succeeds, the error
of copyFile is discarded by the empty branch at lines 144-145 and the
callback returns nil, so the walk continues. -/
def copyFilesStep (srcPath path : String) (entry : DirEntry) (walkErr : Option String)
    (relRes : Except String String) (mkdirRes : Option String)
    (infoRes : Except String Nat) (copyRes : Option String) : WalkRes :=
  if path == srcPath then .cont
  else if entry.isDir && nameIsHidden entry.name then .skipDir
  else
    match walkErr with
    | some e => .fail e
    | none =>
      match relRes with
      | .error e => .fail e
      | .ok _ =>
        if entry.isDir then
          match mkdirRes with
          | some e => .fail e
          | none => .cont
        else
          match infoRes with
          | .error _ => .panicked
          | .ok _ => .cont

/-! ## Claims -/

/-- C1: the claim says both rewriter passes operate on the task directory,
not on a fixed directory shared by all tasks.  In the code the executed
command never receives the task directory: two tasks for different package
directories execute identical command lists, and every executed command has
no Dir set, so it runs in the process working directory (the staging root
after the Chdir in main), the same for every task. -/
theorem c1_rewriter_ignores_task_directory :
    (optimizeTask "/usr/local/bin/betteralign" (optimizeArgs false true)
        "/tmp/goptimizer/u/pkga" okOracle).commandsRun
      = (optimizeTask "/usr/local/bin/betteralign" (optimizeArgs false true)
        "/tmp/goptimizer/u/pkgb" okOracle).commandsRun
    ∧ (optimizeTask "/usr/local/bin/betteralign" (optimizeArgs false true)
        "/tmp/goptimizer/u/pkga" okOracle).commandsRun
      = [{ exe := "/usr/local/bin/betteralign", argv := ["-apply", "-test_files", "."], dir := none },
         { exe := "/usr/local/bin/betteralign", argv := ["-apply", "-test_files", "."], dir := none }] := by
  exact ⟨rfl, rfl⟩

/-- C2: the claim says the staging tree is removed after completion.  The
code creates the staging directory but performs no RemoveAll at all on a
successful run: the cleanup block is commented out in the source. -/
theorem c2_staging_directory_never_removed (goPath tempDir uuid modPath originalDir relPath exeName : String)
    (runTests : Bool) (goflags : List String) :
    Effect.mkdirAll (tempDir ++ "/goptimizer/" ++ uuid)
        ∈ mainSuccessEffects goPath tempDir uuid modPath originalDir relPath exeName runTests goflags
    ∧ ((mainSuccessEffects goPath tempDir uuid modPath originalDir relPath exeName runTests goflags).all
        fun e => !(Effect.isRemoveAll e)) = true := by
  cases runTests <;> simp [mainSuccessEffects, Effect.isRemoveAll]

/-- C3: the claim says two or more executable candidates abort the run with
nothing copied and exit status 1.  Nothing is copied, but the process exits
with status 0: at the ambiguity branch the outer err of main is still nil,
so the deferred exit never fires. -/
theorem c3_multiple_executables_exit_status_zero :
    mainTail "/tmp/goptimizer/u" "/home/user/proj" []
        [{ name := "appa", isDir := false }, { name := "appb", isDir := false }]
        (fun _ => (true, none)) none
      = { exitCode := 0, copied := none
          messages := ["Multiple executable files were generated by go build at: /tmp/goptimizer/u"] }
    ∧ (0 : Nat) ≠ 1 := by
  exact ⟨rfl, by decide⟩

/-- C4: the claim says the generated flag defaults to true so that by
default betteralign receives both options.  The registered default is false
(while the help text documents true), so the default argument vector has the
test files option but not the generated files option. -/
theorem c4_generated_default_is_false :
    generatedFilesDefault = false ∧ testFilesDefault = true
    ∧ optimizeArgs generatedFilesDefault testFilesDefault = ["-apply", "-test_files", "."]
    ∧ (optimizeArgs generatedFilesDefault testFilesDefault).contains "-generated_files" = false
    ∧ helpTextGeneratedLine = "Field align generated files (default true)" := by
  exact ⟨rfl, rfl, rfl, rfl, rfl⟩

/-- C5 counterexample: a failing go mod tidy aborts the run with exit status
1, but its combined output (here the string boom) does not occur in the
printed failure message, because tidy is started with Run, which discards
the subprocess output. -/
theorem c5_counterexample_tidy_output_dropped :
    toolchainPhase "boom" (some "exit status 1") "" none none "" none
      = (1, ["Could not run go mod tidy: exit status 1"])
    ∧ strOccursIn "boom" "Could not run go mod tidy: exit status 1" = false := by
  exact ⟨rfl, by decide⟩

/-- C5 amended: a non zero exit from mod tidy, mod vendor or build is fatal
to the run with exit status 1; the build failure message carries the
captured combined output verbatim (it is a suffix of the message), while the
tidy and vendor failure messages carry only the error value and are
independent of the subprocess output, which is never captured. -/
theorem c5_amended_toolchain_failure_surfacing :
    (∀ (tidyOut e vendorOut : String) (vendorErr optimizeErr : Option String)
        (buildOut : String) (buildErr : Option String),
      toolchainPhase tidyOut (some e) vendorOut vendorErr optimizeErr buildOut buildErr
        = (1, ["Could not run go mod tidy: " ++ e]))
    ∧ (∀ (tidyOut vendorOut e : String) (optimizeErr : Option String)
        (buildOut : String) (buildErr : Option String),
      toolchainPhase tidyOut none vendorOut (some e) optimizeErr buildOut buildErr
        = (1, ["Could not run go mod vendor: " ++ e]))
    ∧ (∀ (tidyOut vendorOut buildOut e : String),
      toolchainPhase tidyOut none vendorOut none none buildOut (some e)
        = (1, ["Could not run go build: " ++ e ++ "\n" ++ buildOut])
        ∧ ("Could not run go build: " ++ e ++ "\n" ++ buildOut).data
            = ("Could not run go build: " ++ e ++ "\n").data ++ buildOut.data) := by
  refine ⟨fun _ _ _ _ _ _ _ => rfl, fun _ _ _ _ _ _ => rfl, fun _ _ _ _ => ⟨rfl, ?_⟩⟩
  simp [String.data_append]

/-- Helper for C6: wherever a go file whose parse result contains a
reflect import sits in the listing, the shouldOptimize loop returns false
in its bool component, whatever the accumulator. -/
theorem shouldOptimizeLoop_reflect_aux (f : GoFile) (imps : List String)
    (hgo : hasGoExt f.name = true) (hparse : f.parsed = Except.ok imps)
    (hrefl : imps.any (fun s => trimQuotes s == "reflect") = true) :
    ∀ (pre post : List GoFile) (b : Bool),
      (shouldOptimizeLoop b (pre ++ f :: post)).1 = false := by
  intro pre
  induction pre with
  | nil =>
    intro post b
    simp [shouldOptimizeLoop, hgo, hparse, hrefl]
  | cons g rest ih =>
    intro post b
    by_cases hg : hasGoExt g.name
    · rcases hp : g.parsed with e | imps2
      · simp [List.cons_append, shouldOptimizeLoop, hg, hp]
      · by_cases ha : imps2.any (fun s => trimQuotes s == "reflect") = true
        · simp [List.cons_append, shouldOptimizeLoop, hg, hp, ha]
        · simp only [List.cons_append, shouldOptimizeLoop, hg, hp, if_true,
            Bool.not_eq_true] at *
          simp only [ha, if_false]
          exact ih post true
    · simp only [List.cons_append, shouldOptimizeLoop, hg, if_false]
      exact ih post b

/-- C6: a directory in which some go source file imports reflect is never
eligible: shouldOptimize returns false in its bool component.  The flags for
generated and test files do not enter the eligibility decision at all (they
are parameters here only to state the independence; shouldOptimize does not
read them). -/
theorem c6_reflect_import_never_eligible (generatedFiles testFiles : Bool)
    (pre post : List GoFile) (f : GoFile) (imps : List String)
    (hgo : hasGoExt f.name = true) (hparse : f.parsed = Except.ok imps)
    (hrefl : imps.any (fun s => trimQuotes s == "reflect") = true) :
    (shouldOptimize (pre ++ f :: post)).1 = false :=
  shouldOptimizeLoop_reflect_aux f imps hgo hparse hrefl pre post false

/-- C6 witness: a directory holding one go file that imports reflect is not
eligible. -/
theorem c6_witness :
    (shouldOptimize [{ name := "a.go", parsed := Except.ok ["\"reflect\""] }]).1 = false :=
  c6_reflect_import_never_eligible true true [] []
    { name := "a.go", parsed := Except.ok ["\"reflect\""] } ["\"reflect\""]
    (by decide) rfl (by decide)

/-- Oracle for a run of betteralign that fails on every pass. -/
def failOracle : Nat → String × Option String := fun _ => ("boom", some "exit status 1")

/-- C7: when the first betteralign pass fails, exactly one command is
executed (the second pass is never invoked), the task returns the error to
the wait group, and the printed diagnostics carry the combined output of the
failing invocation. -/
theorem c7_first_pass_failure_stops_task (alignPath : String) (args : List String)
    (path out e : String) (oracle : Nat → String × Option String)
    (h : oracle 0 = (out, some e)) :
    optimizeTask alignPath args path oracle
      = { commandsRun := [executedAlignCommand alignPath args]
          printed := ["Optimizing:  " ++ path,
                      "Could not run betteralign: " ++ e ++ "\n" ++ out,
                      "done with:  " ++ path]
          taskErr := some e } := by
  simp [optimizeTask, h]

/-- C7 witness: with an oracle that fails the first pass with output boom,
the task executes one command and reports the failure with that output. -/
theorem c7_witness :
    optimizeTask "/usr/local/bin/betteralign" (optimizeArgs false true) "/w/pkg" failOracle
      = { commandsRun := [executedAlignCommand "/usr/local/bin/betteralign" (optimizeArgs false true)]
          printed := ["Optimizing:  /w/pkg",
                      "Could not run betteralign: exit status 1\nboom",
                      "done with:  /w/pkg"]
          taskErr := some "exit status 1" } :=
  c7_first_pass_failure_stops_task "/usr/local/bin/betteralign" (optimizeArgs false true)
    "/w/pkg" "boom" "exit status 1" failOracle rfl

/-- C8: when the snapshot diff yields zero executable candidates, the run
prints the informational message, copies nothing, and the process exits
with status 0. -/
theorem c8_zero_candidates_informational (tmpDir originalDir : String)
    (before after : List DirEntry) (isExec : String → Bool × Option String)
    (copyErr : Option String)
    (h : collectExecutables tmpDir isExec (diffDirs before after) = Except.ok []) :
    mainTail tmpDir originalDir before after isExec copyErr
      = { exitCode := 0, copied := none
          messages := ["No executable files were generated by go build"] } := by
  simp [mainTail, h]

/-- C8 witness: empty snapshots yield the informational outcome. -/
theorem c8_witness :
    mainTail "/tmp/goptimizer/u" "/home/user/proj" [] [] (fun _ => (true, none)) none
      = { exitCode := 0, copied := none
          messages := ["No executable files were generated by go build"] } :=
  c8_zero_candidates_informational "/tmp/goptimizer/u" "/home/user/proj" [] []
    (fun _ => (true, none)) none rfl

/-- C9 counterexample: at a file entry whose Info call fails, the walk does
not continue over the remaining entries: the discarded error leaves a nil
FileInfo whose Mode call panics. -/
theorem c9_counterexample_info_error_panics :
    copyFilesStep "/src" "/src/a.go" { name := "a.go", isDir := false } none
        (Except.ok "a.go") none (Except.error "lstat a.go: no such file or directory") none
      = WalkRes.panicked
    ∧ WalkRes.panicked ≠ WalkRes.cont := by
  exact ⟨rfl, by decide⟩

/-- C9 amended: in the tree-copy walk, a per file copy error is dropped and
the callback returns nil so the walk continues; a file info retrieval error
is also dropped, but the subsequent Mode call on the nil file info panics,
crashing the walk instead of continuing. -/
theorem c9_amended_copy_error_dropped_info_error_panics
    (srcPath path : String) (entry : DirEntry) (rel : String)
    (mkdirRes : Option String) (mode : Nat) (e : String) (copyRes copyRes2 : Option String)
    (hroot : (path == srcPath) = false) (hfile : entry.isDir = false) :
    copyFilesStep srcPath path entry none (Except.ok rel) mkdirRes (Except.ok mode) copyRes
      = WalkRes.cont
    ∧ copyFilesStep srcPath path entry none (Except.ok rel) mkdirRes (Except.error e) copyRes2
      = WalkRes.panicked := by
  simp [copyFilesStep, hroot, hfile]

/-- C9 witness: a concrete file entry with a failing copy continues the
walk, and one with a failing Info call panics. -/
theorem c9_witness :
    copyFilesStep "/src" "/src/b.go" { name := "b.go", isDir := false } none
        (Except.ok "b.go") none (Except.ok 420) (some "copy failed")
      = WalkRes.cont
    ∧ copyFilesStep "/src" "/src/b.go" { name := "b.go", isDir := false } none
        (Except.ok "b.go") none (Except.error "lstat b.go: no such file") none
      = WalkRes.panicked :=
  c9_amended_copy_error_dropped_info_error_panics "/src" "/src/b.go"
    { name := "b.go", isDir := false } "b.go" none 420 "lstat b.go: no such file"
    (some "copy failed") none (by decide) rfl

/-- C10: the snapshot diff works by entry name only: a name already present
as a non directory entry of the before snapshot never appears in the diff,
and when every non directory entry of the after snapshot reuses such a name
(the build overwrote an existing entry and created nothing new), the run
reports zero executable candidates and copies nothing back. -/
theorem c10_preexisting_name_excluded_from_diff (before after : List DirEntry) (n : String)
    (hpre : (before.any fun e => !e.isDir && e.name == n) = true) :
    ((diffDirs before after).all fun f => !(f.name == n)) = true
    ∧ ((after.all fun e => e.isDir
          || ((before.filter fun g => !g.isDir).map DirEntry.name).contains e.name) = true →
        ∀ (tmpDir originalDir : String) (isExec : String → Bool × Option String)
          (copyErr : Option String),
        mainTail tmpDir originalDir before after isExec copyErr
          = { exitCode := 0, copied := none
              messages := ["No executable files were generated by go build"] }) := by
  rcases List.any_eq_true.mp hpre with ⟨w, hw, hcond⟩
  rcases Bool.and_eq_true_iff.mp hcond with ⟨hwdir, hwname⟩
  have hwname : w.name = n := beq_iff_eq.mp hwname
  have hmem : n ∈ (before.filter fun g => !g.isDir).map DirEntry.name := by
    refine List.mem_map.mpr ⟨w, List.mem_filter.mpr ⟨hw, hwdir⟩, hwname⟩
  have hcontains : ((before.filter fun g => !g.isDir).map DirEntry.name).contains n = true :=
    List.elem_eq_true_of_mem hmem
  constructor
  · refine List.all_eq_true.mpr ?_
    intro f hf
    have hp := (List.mem_filter.mp hf).2
    rcases Bool.and_eq_true_iff.mp hp with ⟨_, hnc⟩
    by_cases hfn : f.name = n
    · rw [hfn, hcontains] at hnc
      exact absurd hnc (by decide)
    · simp [hfn]
  · intro hall tmpDir originalDir isExec copyErr
    have hdiff : diffDirs before after = [] := by
      refine List.filter_eq_nil_iff.mpr ?_
      intro f hf
      have := List.all_eq_true.mp hall f hf
      rcases Bool.or_eq_true_iff.mp this with hd | hc
      · simp [hd]
      · simp only [hc, Bool.not_true, Bool.and_false]
        exact Bool.false_ne_true
    unfold mainTail
    rw [hdiff]
    rfl

/-- C10 witness: a before snapshot already holding the non directory entry
app, and an after snapshot with the same names, yield a diff without app
and the zero candidate outcome. -/
theorem c10_witness :
    ((diffDirs [{ name := "app", isDir := false }, { name := "app.go", isDir := false }]
        [{ name := "app", isDir := false }, { name := "app.go", isDir := false }]).all
      fun f => !(f.name == "app")) = true
    ∧ mainTail "/tmp/goptimizer/u" "/home/user/proj"
        [{ name := "app", isDir := false }, { name := "app.go", isDir := false }]
        [{ name := "app", isDir := false }, { name := "app.go", isDir := false }]
        (fun _ => (true, none)) none
      = { exitCode := 0, copied := none
          messages := ["No executable files were generated by go build"] } :=
  ⟨(c10_preexisting_name_excluded_from_diff
      [{ name := "app", isDir := false }, { name := "app.go", isDir := false }]
      [{ name := "app", isDir := false }, { name := "app.go", isDir := false }]
      "app" (by decide)).1,
   (c10_preexisting_name_excluded_from_diff
      [{ name := "app", isDir := false }, { name := "app.go", isDir := false }]
      [{ name := "app", isDir := false }, { name := "app.go", isDir := false }]
      "app" (by decide)).2 (by decide) "/tmp/goptimizer/u" "/home/user/proj"
      (fun _ => (true, none)) none⟩

end Goptimizer
